import Mathlib

/-!
Shallow embedding of the PesoPilot budgeting application.

Dates are modelled at calendar-day granularity: a JavaScript `Date` value is
represented by its day number (days since the Unix epoch, 1970-01-01 = day 0).
The civil-calendar conversions below embed the proleptic Gregorian calendar
arithmetic that the JavaScript `Date` runtime performs (months are 0-based,
as in JavaScript).  Monetary amounts are modelled as rationals.
-/

namespace PesoPilot

/-- Gregorian leap-year test (JavaScript `Date` calendar). -/
def isLeap (y : Int) : Prop :=
  (y % 4 = 0 ∧ y % 100 ≠ 0) ∨ y % 400 = 0

instance (y : Int) : Decidable (isLeap y) := by
  unfold isLeap; infer_instance

/-- Number of days in month `m` (0-based: 0 = January … 11 = December) of year `y`. -/
def daysInMonth (y m : Int) : Int :=
  if m = 1 then (if isLeap y then 29 else 28)
  else if m = 3 ∨ m = 5 ∨ m = 8 ∨ m = 10 then 30
  else 31

/-- Day number (days since 1970-01-01) of the civil date `(y, m, d)`,
with `m` 0-based and `d` 1-based; `d` may be out of range, in which case the
result is offset from day 1 of the month (JavaScript day-overflow semantics). -/
def daysFromCivil (y m d : Int) : Int :=
  let yAdj := if m ≤ 1 then y - 1 else y
  let era := yAdj / 400
  let yoe := yAdj - era * 400
  let mp := (m + 10) % 12
  let doy := (153 * mp + 2) / 5 + d - 1
  let doe := yoe * 365 + yoe / 4 - yoe / 100 + doy
  era * 146097 + doe - 719468

/-- Civil date `(year, month, day)` (month 0-based, day 1-based) of a day number. -/
def civilFromDays (z : Int) : Int × Int × Int :=
  let zs := z + 719468
  let era := zs / 146097
  let doe := zs - era * 146097
  let yoe := (doe - doe / 1460 + doe / 36524 - doe / 146096) / 365
  let y := yoe + era * 400
  let doy := doe - (365 * yoe + yoe / 4 - yoe / 100)
  let mp := (5 * doy + 2) / 153
  let d := doy - (153 * mp + 2) / 5 + 1
  let m := if mp < 10 then mp + 2 else mp - 10
  (if m ≤ 1 then y + 1 else y, m, d)

/-- JavaScript `Date.prototype.getDay`: weekday index, Sunday = 0 (day 0 was a Thursday). -/
def jsGetDay (z : Int) : Int := (z + 4) % 7

/-- JavaScript `Date.prototype.getFullYear`. -/
def jsGetFullYear (z : Int) : Int := (civilFromDays z).1

/-- JavaScript `Date.prototype.getMonth` (0-based). -/
def jsGetMonth (z : Int) : Int := (civilFromDays z).2.1

/-- JavaScript `Date.prototype.getDate`: 1-based day of month. -/
def jsGetDate (z : Int) : Int := (civilFromDays z).2.2

/-- JavaScript `Date.prototype.setDate v`: moves the date to day-of-month `v`
of its current month, i.e. shifts the day number by `v - getDate`. -/
def jsSetDate (z v : Int) : Int := z + (v - jsGetDate z)

/-- JavaScript `new Date(y, m, d)` at day granularity: the month argument may
be out of `[0, 11]` and is normalised into the year; the day argument may be
out of range and offsets from day 1 of the normalised month. -/
def mkDate (y m d : Int) : Int :=
  daysFromCivil (y + m / 12) (m % 12) 1 + (d - 1)

/-- First calendar day of month `m` of year `y`, as a day number. -/
def firstDayOfMonth (y m : Int) : Int := daysFromCivil y m 1

/-- Last calendar day of month `m` of year `y`, as a day number. -/
def lastDayOfMonth (y m : Int) : Int := daysFromCivil y m (daysInMonth y m)

/-! ## Data model (`supabase/schema.sql`, `src/app/api/budget.ts`) -/

/-- Budget period (`budgets.period`: `weekly` or `monthly`). -/
inductive Period where
  | weekly
  | monthly
deriving DecidableEq, Repr

/-- A `budgets` row. -/
structure Budget where
  id : String
  user_id : String
  amount : ℚ
  period : Period
  created_at : Int
deriving DecidableEq, Repr

/-- An `expenses` row (`date` is a day number). -/
structure Expense where
  id : String
  user_id : String
  amount : ℚ
  category : String
  description : String
  date : Int
  created_at : Int
deriving DecidableEq, Repr

/-- Result shape of `getBudgetSummary`. -/
structure BudgetSummary where
  budget : Option Budget
  totalSpent : ℚ
  remaining : ℚ
  percentageUsed : ℚ
  expenses : List Expense
deriving DecidableEq, Repr

/-- Date-range derivation of `getBudgetSummary` (budget.ts lines 434-449):
weekly starts from the beginning of the current week (Sunday) and ends 6 days
later; otherwise (monthly, or no budget) the range is the current calendar
month. -/
def periodRange (period : Option Period) (now : Int) : Int × Int :=
  if period = some Period.weekly then
    let startDate := jsSetDate now (jsGetDate now - jsGetDay now)
    (startDate, jsSetDate startDate (jsGetDate startDate + 6))
  else
    (mkDate (jsGetFullYear now) (jsGetMonth now) 1,
     mkDate (jsGetFullYear now) (jsGetMonth now + 1) 0)

/-- Embedding of `getBudgetSummary` (budget.ts lines 403-473).  The store is modelled by
the caller's budget row (if any) and the `expenses` table; the `user_id`
filter and the inclusive date-range filter embed the query, and the rows come
back ordered by date descending. -/
def getBudgetSummary (user : Option String) (budget : Option Budget)
    (expenses : List Expense) (now : Int) : BudgetSummary :=
  match user with
  | none => ⟨none, 0, 0, 0, []⟩
  | some uid =>
    let range := periodRange (budget.map (fun b => b.period)) now
    let expensesList := List.insertionSort (fun a b => b.date ≤ a.date)
      (expenses.filter (fun e => decide (e.user_id = uid ∧ range.1 ≤ e.date ∧ e.date ≤ range.2)))
    let totalSpent := (expensesList.map (fun e => e.amount)).sum
    let budgetAmount : ℚ := match budget with | some b => b.amount | none => 0
    let remaining := max 0 (budgetAmount - totalSpent)
    let percentageUsed := if budgetAmount > 0 then totalSpent / budgetAmount * 100 else 0
    ⟨budget, totalSpent, remaining, min percentageUsed 100, expensesList⟩

/-- One point of the daily spending series. -/
structure SpendingData where
  date : Int
  amount : ℚ
deriving DecidableEq, Repr

/-- Body of the date-filling `while` loop of `getSpendingOverTime`, compiled
to structural recursion on the iteration count: starting at day `c`, one
entry per day for `n` days. -/
def fillDaysGo (totals : Int → ℚ) : Nat → Int → List SpendingData
  | 0, _ => []
  | n + 1, c => ⟨c, totals c⟩ :: fillDaysGo totals n (c + 1)

/-- The `while (currentDate <= endDate)` fill loop of `getSpendingOverTime`:
pushes one `{date, amount}` entry per calendar day from `c` to `e` inclusive,
taking the day amount from `totals` (0 when the day is absent there). -/
def fillDays (c e : Int) (totals : Int → ℚ) : List SpendingData :=
  fillDaysGo totals (e + 1 - c).toNat c

/-- Embedding of `getSpendingOverTime` (budget.ts lines 543-593): query the caller's
expenses between `now - days` and `now` inclusive, aggregate per date, then
fill every day of the range, defaulting missing days to 0. -/
def getSpendingOverTime (user : Option String) (now : Int)
    (expenses : List Expense) (days : Int := 30) : List SpendingData :=
  match user with
  | none => []
  | some uid =>
    let endDate := now
    let startDate := jsSetDate now (jsGetDate now - days)
    let rows := List.insertionSort (fun a b => a.date ≤ b.date)
      (expenses.filter (fun e => decide (e.user_id = uid ∧ startDate ≤ e.date ∧ e.date ≤ endDate)))
    let dailyTotals : Int → ℚ :=
      fun d => ((rows.filter (fun e => decide (e.date = d))).map (fun e => e.amount)).sum
    fillDays startDate endDate dailyTotals

/-! ## Premium workflow (`src/app/api/premium.ts`, `supabase/schema.sql`)

The server-side premium functions run with the caller's own identity, so the
row-level-security policies of `schema.sql` apply to every query: a row that
a policy excludes is invisible to a `SELECT` and silently skipped by an
`UPDATE` (PostgREST reports no error when an update matches zero rows). -/

/-- Status of a `premium_requests` row. -/
inductive ReqStatus where
  | pending
  | approved
  | rejected
deriving DecidableEq, Repr

/-- A `profiles` row. -/
structure Profile where
  id : String
  full_name : Option String
  is_premium : Bool
  premium_type : String
  premium_since : Option Int
  created_at : Int
deriving DecidableEq, Repr

/-- A `premium_requests` row. -/
structure PremiumRequest where
  id : String
  user_id : String
  status : ReqStatus
  payment_proof_url : String
  amount_paid : ℚ
  created_at : Int
  reviewed_at : Option Int
  reviewed_by : Option String
deriving DecidableEq, Repr

/-- The store state the premium workflow touches. -/
structure DB where
  profiles : List Profile
  premium_requests : List PremiumRequest
deriving DecidableEq, Repr

/-- The admin gate `EXISTS (SELECT 1 FROM profiles WHERE id = auth.uid() AND is_premium = TRUE)`:
the admin gate used by the `premium_requests` policies. -/
def isPremiumProfile (db : DB) (uid : String) : Prop :=
  ∃ p ∈ db.profiles, p.id = uid ∧ p.is_premium = true

instance (db : DB) (uid : String) : Decidable (isPremiumProfile db uid) := by
  unfold isPremiumProfile; infer_instance

/-- RLS `SELECT` visibility on `premium_requests`: the owner
("Users can view own premium requests") or any premium profile
("Admins can view all premium requests"). -/
def canSelectRequest (db : DB) (uid : String) (r : PremiumRequest) : Prop :=
  r.user_id = uid ∨ isPremiumProfile db uid

instance (db : DB) (uid : String) (r : PremiumRequest) :
    Decidable (canSelectRequest db uid r) := by
  unfold canSelectRequest; infer_instance

/-- RLS `UPDATE` row filter on `premium_requests`: only
"Admins can update premium requests" exists. -/
def canUpdateRequests (db : DB) (uid : String) : Prop :=
  isPremiumProfile db uid

instance (db : DB) (uid : String) : Decidable (canUpdateRequests db uid) := by
  unfold canUpdateRequests; infer_instance

/-- Embedding of `.select(...).eq("id", requestId).single()` under RLS: some row exactly
when one visible row matches (`.single()` errors on zero or several rows). -/
def selectRequestSingle (db : DB) (uid : String) (rid : String) :
    Option PremiumRequest :=
  match db.premium_requests.filter
      (fun r => decide (r.id = rid ∧ canSelectRequest db uid r)) with
  | [r] => some r
  | _ => none

/-- Result of a server action: `{ success: true }` or `{ error }`. -/
inductive ApiResult where
  | success
  | error (msg : String)
deriving DecidableEq, Repr

/-- Embedding of `approvePremiumRequest` (premium.ts lines 145-170): look the request up,
set its status to approved with review metadata, then upgrade the requester's
profile.  Both updates are row-filtered by RLS; neither reports an error when
it matches zero rows. -/
def approvePremiumRequest (db : DB) (user : Option String) (now : Int)
    (requestId : String) : ApiResult × DB :=
  match user with
  | none => (.error "Not authenticated", db)
  | some uid =>
    match selectRequestSingle db uid requestId with
    | none => (.error "Request not found", db)
    | some request =>
      let db1 : DB :=
        { db with premium_requests := db.premium_requests.map (fun r =>
            if r.id = requestId ∧ canUpdateRequests db uid then
              { r with status := .approved, reviewed_by := some uid,
                       reviewed_at := some now }
            else r) }
      let db2 : DB :=
        { db1 with profiles := db1.profiles.map (fun p =>
            if p.id = request.user_id ∧ p.id = uid then
              { p with is_premium := true, premium_type := "lifetime",
                       premium_since := some now }
            else p) }
      (.success, db2)

/-- Embedding of `rejectPremiumRequest` (premium.ts lines 172-183): a single RLS-filtered
update, no existence check, no profile side effect. -/
def rejectPremiumRequest (db : DB) (user : Option String) (now : Int)
    (requestId : String) : ApiResult × DB :=
  match user with
  | none => (.error "Not authenticated", db)
  | some uid =>
    (.success,
     { db with premium_requests := db.premium_requests.map (fun r =>
         if r.id = requestId ∧ canUpdateRequests db uid then
           { r with status := .rejected, reviewed_by := some uid,
                    reviewed_at := some now }
         else r) })

/-- The proof artifact attached to a premium submission. -/
structure UploadFile where
  name : String
deriving DecidableEq, Repr

/-- Embedding of `submitPremiumRequest` (premium.ts lines 56-94).  The storage upload and
the row insert are external effects whose success is a parameter
(`uploadOk`, `insertOk`); the request row is inserted only after a
successful upload. -/
def submitPremiumRequest (db : DB) (user : Option String)
    (paymentProof : Option UploadFile) (uploadOk insertOk : Bool)
    (newId : String) (now : Int) : ApiResult × DB :=
  match user with
  | none => (.error "Not authenticated", db)
  | some uid =>
    match paymentProof with
    | none => (.error "Payment proof is required", db)
    | some f =>
      let fileExt := (f.name.splitOn ".").getLastD ""
      let fileName := "payment_proofs/" ++ uid ++ "/" ++ toString now ++ "." ++ fileExt
      if uploadOk = false then (.error "Failed to upload payment proof", db)
      else
        let publicUrl := fileName
        if insertOk = false then (.error "Failed to submit premium request", db)
        else
          (.success,
           { db with premium_requests := db.premium_requests ++
               [{ id := newId, user_id := uid, status := .pending,
                  payment_proof_url := publicUrl, amount_paid := 199,
                  created_at := now, reviewed_at := none, reviewed_by := none }] })

/-! ## Insight generation (`AIInsights.tsx`, ai-insights route) -/

/-- The financial snapshot sent to the insight generator. -/
structure FinancialData where
  budget : ℚ
  total_spent : ℚ
  percent_used : Int
  daily_average : ℚ
  projected_days_remaining : Int
  top_category : String
  risk_level : String
deriving DecidableEq, Repr

/-- One insight record. -/
structure Insight where
  icon : String
  title : String
  description : String
  type : String
deriving DecidableEq, Repr

/-- Risk-level derivation of `calculateFinancialData`
(AIInsights.tsx lines 103-106). -/
def calcRiskLevel (percentUsed : Int) : String :=
  if percentUsed > 75 then "high"
  else if percentUsed ≥ 40 then "moderate"
  else "low"

/-- Embedding of `generateFallbackInsights` (ai-insights route lines 126-184): the
deterministic rule-based insight set used whenever the external generative
API is unconfigured, fails, or returns unparseable output. -/
def generateFallbackInsights (data : FinancialData) : List Insight :=
  let first : Insight :=
    if data.risk_level = "high" then
      { icon := "alert", title := "Budget Critical",
        description := "You\x27ve used " ++ toString data.percent_used ++
          "% of your budget. Cut non-essential spending immediately.",
        type := "alert" }
    else if data.risk_level = "moderate" then
      { icon := "warning", title := "Budget Warning",
        description := "You\x27re at " ++ toString data.percent_used ++
          "% budget usage. Slow down spending to stay on track.",
        type := "warning" }
    else
      { icon := "check", title := "Budget Healthy",
        description := "Great job! Only " ++ toString data.percent_used ++
          "% used. You\x27re well within your budget.",
        type := "success" }
  [first,
   { icon := "trend", title := "Daily Spending",
     description := "Your daily average is ₱" ++ toString data.daily_average ++
       ". At this rate, budget runs out in " ++
       toString data.projected_days_remaining ++ " days.",
     type := if data.projected_days_remaining < 7 then "warning" else "tip" },
   { icon := "lightbulb", title := "Top Category Focus",
     description := data.top_category ++
       " is your biggest expense. Review these transactions for savings opportunities.",
     type := "tip" },
   { icon := "trend", title := "Savings Potential",
     description :=
       if data.percent_used < 50 then
         "You\x27re on track to save ₱" ++ toString (data.budget - data.total_spent) ++
           " this period. Keep it up!"
       else
         "Reduce discretionary spending to avoid exceeding your ₱" ++
           toString data.budget ++ " budget.",
     type := if data.percent_used < 50 then "success" else "warning" }]

/-! ## Support lemmas -/

lemma civilFromDays_epoch : civilFromDays 0 = (1970, 0, 1) := by decide

lemma civilFromDays_neg : civilFromDays (-1) = (1969, 11, 31) := by decide

lemma civilFromDays_modern : civilFromDays 20000 = (2024, 9, 4) := by decide

lemma civilFromDays_leap_day : civilFromDays 19782 = (2024, 1, 29) := by decide

lemma civilFromDays_after_leap_day : civilFromDays 19783 = (2024, 2, 1) := by decide

lemma daysFromCivil_epoch : daysFromCivil 1970 0 1 = 0 := by decide

lemma daysFromCivil_leap_day : daysFromCivil 2024 1 29 = 19782 := by decide

lemma jsGetDay_epoch_thursday : jsGetDay 0 = 4 := by decide

lemma civilFromDays_month_bounds (z : Int) :
    0 ≤ (civilFromDays z).2.1 ∧ (civilFromDays z).2.1 ≤ 11 := by
  simp only [civilFromDays]
  split <;> omega

/-- Day 0 of month `m + 1` (JavaScript month/day normalisation) is the last
calendar day of month `m`. -/
lemma mkDate_zero_next (y m : Int) (h0 : 0 ≤ m) (h1 : m ≤ 11) :
    mkDate y (m + 1) 0 = lastDayOfMonth y m := by
  interval_cases m <;>
    · simp only [mkDate, lastDayOfMonth, daysFromCivil, daysInMonth, isLeap]
      norm_num
      try split_ifs
      all_goals omega

lemma mkDate_first (y m : Int) (h0 : 0 ≤ m) (h1 : m ≤ 11) :
    mkDate y m 1 = firstDayOfMonth y m := by
  interval_cases m <;>
    · simp only [mkDate, firstDayOfMonth, daysFromCivil]
      try split_ifs
      all_goals omega

lemma jsSetDate_getDate_add (z k : Int) : jsSetDate z (jsGetDate z + k) = z + k := by
  simp only [jsSetDate]; ring

lemma jsSetDate_getDate_sub (z k : Int) : jsSetDate z (jsGetDate z - k) = z - k := by
  simp only [jsSetDate]; ring

lemma fillDaysGo_length (f : Int → ℚ) (n : Nat) (c : Int) :
    (fillDaysGo f n c).length = n := by
  induction n generalizing c with
  | zero => rfl
  | succ n ih => simp [fillDaysGo, ih]

lemma fillDaysGo_getElem? (f : Int → ℚ) (n : Nat) (c : Int) (k : Nat) (hk : k < n) :
    (fillDaysGo f n c)[k]? = some ⟨c + k, f (c + k)⟩ := by
  induction n generalizing c k with
  | zero => omega
  | succ n ih =>
    cases k with
    | zero => simp [fillDaysGo]
    | succ k =>
      have := ih (c + 1) k (by omega)
      simp only [fillDaysGo, List.getElem?_cons_succ, this]
      congr 2 <;> [skip; congr 1] <;> push_cast <;> ring

lemma fillDaysGo_mem (f : Int → ℚ) (n : Nat) (c : Int) (x : SpendingData)
    (hx : x ∈ fillDaysGo f n c) :
    x.amount = f x.date ∧ c ≤ x.date ∧ x.date < c + n := by
  induction n generalizing c with
  | zero => simp [fillDaysGo] at hx
  | succ n ih =>
    simp only [fillDaysGo, List.mem_cons] at hx
    rcases hx with rfl | hx
    · exact ⟨rfl, by simp, by simp⟩
    · have := ih (c + 1) hx
      exact ⟨this.1, by omega, by push_cast at this ⊢; omega⟩

lemma fillDaysGo_pairwise (f : Int → ℚ) (n : Nat) (c : Int) :
    (fillDaysGo f n c).Pairwise (fun a b => a.date < b.date) := by
  induction n generalizing c with
  | zero => simp [fillDaysGo]
  | succ n ih =>
    simp only [fillDaysGo, List.pairwise_cons]
    exact ⟨fun x hx => by have := fillDaysGo_mem f n (c + 1) x hx; omega, ih (c + 1)⟩

lemma map_noop {α : Type} (l : List α) (f : α → α) (h : ∀ x ∈ l, f x = x) :
    l.map f = l := by
  induction l with
  | nil => rfl
  | cons a t ih =>
    simp only [List.map_cons, h a (by simp)]
    rw [ih (fun x hx => h x (by simp [hx]))]

lemma sum_map_amount_nonneg (l : List Expense) (h : ∀ e ∈ l, (0 : ℚ) ≤ e.amount) :
    0 ≤ (l.map (fun e => e.amount)).sum := by
  apply List.sum_nonneg
  intro x hx
  obtain ⟨e, he, rfl⟩ := List.mem_map.1 hx
  exact h e he

lemma sum_map_insertionSort (r : Expense → Expense → Prop) [DecidableRel r]
    (l : List Expense) (f : Expense → ℚ) :
    ((List.insertionSort r l).map f).sum = (l.map f).sum :=
  ((List.perm_insertionSort r l).map f).sum_eq

lemma filter_map_sum_insertionSort (r : Expense → Expense → Prop) [DecidableRel r]
    (l : List Expense) (p : Expense → Bool) (f : Expense → ℚ) :
    (((List.insertionSort r l).filter p).map f).sum = ((l.filter p).map f).sum :=
  (((List.perm_insertionSort r l).filter p).map f).sum_eq

lemma getBudgetSummary_totalSpent_nonneg (uid : String) (budget : Option Budget)
    (expenses : List Expense) (now : Int)
    (he : ∀ e ∈ expenses, (0 : ℚ) ≤ e.amount) :
    0 ≤ (getBudgetSummary (some uid) budget expenses now).totalSpent := by
  simp only [getBudgetSummary]
  apply sum_map_amount_nonneg
  intro e hee
  have hmem := (List.perm_insertionSort _ _).mem_iff.1 hee
  exact he e (List.mem_filter.1 hmem).1

lemma pct_eq (bAmt t : ℚ) :
    min (if bAmt > 0 then t / bAmt * 100 else 0) 100
      = (if 0 < bAmt then min 100 (t / bAmt * 100) else 0) := by
  split_ifs with h
  · exact min_comm _ _
  · exact min_eq_left (by norm_num)

lemma pct_nonneg (bAmt t : ℚ) (hb : 0 ≤ bAmt) (ht : 0 ≤ t) :
    0 ≤ min (if bAmt > 0 then t / bAmt * 100 else 0) 100 := by
  refine le_min ?_ (by norm_num)
  split_ifs with h
  · have h1 : 0 ≤ t / bAmt := div_nonneg ht hb
    linarith
  · exact le_refl 0

lemma pct_le_100 (bAmt t : ℚ) :
    min (if bAmt > 0 then t / bAmt * 100 else 0) 100 ≤ 100 :=
  min_le_right _ _

lemma dailyTotal_eq (uid : String) (lo hi d : Int) (expenses : List Expense)
    (hlo : lo ≤ d) (hhi : d ≤ hi) :
    (((List.insertionSort (fun a b : Expense => a.date ≤ b.date)
        (expenses.filter (fun e =>
          decide (e.user_id = uid ∧ lo ≤ e.date ∧ e.date ≤ hi)))).filter
            (fun e => decide (e.date = d))).map (fun e => e.amount)).sum
      = ((expenses.filter (fun e => decide (e.user_id = uid ∧ e.date = d))).map
          (fun e => e.amount)).sum := by
  rw [filter_map_sum_insertionSort, List.filter_filter]
  congr 1
  congr 1
  apply List.filter_congr
  intro e he
  simp only [← Bool.decide_and, decide_eq_decide]
  constructor
  · rintro ⟨hd, hu, _, _⟩
    exact ⟨hu, hd⟩
  · rintro ⟨hu, hd⟩
    exact ⟨hd, hu, by omega, by omega⟩

lemma dailyTotal_zero (uid : String) (lo hi d : Int) (expenses : List Expense)
    (hno : ∀ e ∈ expenses, e.user_id = uid → e.date ≠ d) :
    (((List.insertionSort (fun a b : Expense => a.date ≤ b.date)
        (expenses.filter (fun e =>
          decide (e.user_id = uid ∧ lo ≤ e.date ∧ e.date ≤ hi)))).filter
            (fun e => decide (e.date = d))).map (fun e => e.amount)).sum = 0 := by
  rw [filter_map_sum_insertionSort, List.filter_filter]
  have hnil : expenses.filter
      (fun e => decide (e.date = d) && decide (e.user_id = uid ∧ lo ≤ e.date ∧ e.date ≤ hi))
      = [] := by
    rw [List.filter_eq_nil_iff]
    intro e he
    simp only [← Bool.decide_and, decide_eq_true_eq]
    rintro ⟨hd, hu, _, _⟩
    exact hno e he hu hd
  rw [hnil]
  rfl

/-! ## Claim theorems -/

/-- C7: the derived risk tier is `high` exactly when percentUsed > 75,
`moderate` exactly when 40 ≤ percentUsed ≤ 75, and `low` otherwise; in
particular 75 yields `moderate` and 76 yields `high`. -/
theorem claim_C7_risk_tier (p : Int) :
    (calcRiskLevel p = "high" ↔ 75 < p) ∧
    (calcRiskLevel p = "moderate" ↔ 40 ≤ p ∧ p ≤ 75) ∧
    (calcRiskLevel p = "low" ↔ p < 40) ∧
    calcRiskLevel 75 = "moderate" ∧ calcRiskLevel 76 = "high" := by
  refine ⟨?_, ?_, ?_, by decide, by decide⟩ <;>
    · unfold calcRiskLevel
      split_ifs <;> simp_all <;> omega

/-- C9: fallback insight generation is a pure, deterministic function of the
financial snapshot — identical snapshots give identical output — and its
output always consists of exactly 4 insight records. -/
theorem claim_C9_fallback_deterministic (d1 d2 : FinancialData) (h : d1 = d2) :
    generateFallbackInsights d1 = generateFallbackInsights d2 ∧
    (generateFallbackInsights d1).length = 4 := by
  subst h
  refine ⟨rfl, ?_⟩
  unfold generateFallbackInsights
  simp

theorem claim_C9_witness :
    ((⟨5000, 3000, 60, 100, 20, "Food", "moderate"⟩ : FinancialData)
        = ⟨5000, 3000, 60, 100, 20, "Food", "moderate"⟩) ∧
    (generateFallbackInsights ⟨5000, 3000, 60, 100, 20, "Food", "moderate"⟩
        = generateFallbackInsights ⟨5000, 3000, 60, 100, 20, "Food", "moderate"⟩ ∧
      (generateFallbackInsights ⟨5000, 3000, 60, 100, 20, "Food", "moderate"⟩).length = 4) :=
  ⟨rfl, claim_C9_fallback_deterministic _ _ rfl⟩

/-- C8: `submitPremiumRequest` fails with the validation error when no proof
file is attached and with the upload error when artifact storage fails, and
in both cases the store (in particular `premium_requests`) is unchanged: the
insert happens only after a successful upload. -/
theorem claim_C8_submit_failure_paths (db : DB) (uid : String) (f : UploadFile)
    (insertOk : Bool) (newId : String) (now : Int) :
    (∀ uploadOk, submitPremiumRequest db (some uid) none uploadOk insertOk newId now
        = (.error "Payment proof is required", db)) ∧
    submitPremiumRequest db (some uid) (some f) false insertOk newId now
        = (.error "Failed to upload payment proof", db) := by
  constructor
  · intro uploadOk; rfl
  · rfl

/-- C10: for an authenticated caller and a request id that matches no stored
row, `rejectPremiumRequest` reports success (no existence check, the update
matches zero rows) while `approvePremiumRequest` fails with the not-found
error; neither changes the store. -/
theorem claim_C10_review_asymmetry_on_missing_id (db : DB) (uid rid : String)
    (now : Int) (habs : ∀ r ∈ db.premium_requests, r.id ≠ rid) :
    rejectPremiumRequest db (some uid) now rid = (.success, db) ∧
    approvePremiumRequest db (some uid) now rid = (.error "Request not found", db) := by
  constructor
  · simp only [rejectPremiumRequest]
    have hmap : db.premium_requests.map (fun r =>
        if r.id = rid ∧ canUpdateRequests db uid then
          { r with status := .rejected, reviewed_by := some uid,
                   reviewed_at := some now }
        else r) = db.premium_requests :=
      map_noop _ _ (fun r hr => by
        rw [if_neg]
        exact fun hc => habs r hr hc.1)
    rw [hmap]
  · simp only [approvePremiumRequest]
    have hsel : selectRequestSingle db uid rid = none := by
      unfold selectRequestSingle
      have : db.premium_requests.filter
          (fun r => decide (r.id = rid ∧ canSelectRequest db uid r)) = [] := by
        rw [List.filter_eq_nil_iff]
        intro r hr
        simp only [decide_eq_true_eq, not_and]
        exact fun hc => absurd hc (habs r hr)
      rw [this]
    rw [hsel]

theorem claim_C10_witness :
    (∀ r ∈ (⟨[], []⟩ : DB).premium_requests, r.id ≠ "r9") ∧
    (rejectPremiumRequest ⟨[], []⟩ (some "u") 0 "r9" = (.success, ⟨[], []⟩) ∧
      approvePremiumRequest ⟨[], []⟩ (some "u") 0 "r9"
        = (.error "Request not found", ⟨[], []⟩)) :=
  ⟨by simp, claim_C10_review_asymmetry_on_missing_id ⟨[], []⟩ "u" "r9" 0 (by simp)⟩

/-- C4 (failing input witness): a non-premium caller approving their own
pending request does not fail — the call reports success, the request row
stays `pending` (the RLS update policy matches no row), and the caller's own
profile is nevertheless upgraded to premium. -/
theorem claim_C4_nonpremium_self_approve :
    (approvePremiumRequest
        ⟨[⟨"alice", none, false, "free", none, 0⟩],
         [⟨"r1", "alice", .pending, "proof.png", 199, 0, none, none⟩]⟩
        (some "alice") 5 "r1").1 = .success ∧
    ((approvePremiumRequest
        ⟨[⟨"alice", none, false, "free", none, 0⟩],
         [⟨"r1", "alice", .pending, "proof.png", 199, 0, none, none⟩]⟩
        (some "alice") 5 "r1").2.premium_requests.map (fun r => r.status))
      = [.pending] ∧
    ((approvePremiumRequest
        ⟨[⟨"alice", none, false, "free", none, 0⟩],
         [⟨"r1", "alice", .pending, "proof.png", 199, 0, none, none⟩]⟩
        (some "alice") 5 "r1").2.profiles.map (fun p => (p.is_premium, p.premium_type)))
      = [(true, "lifetime")] := by
  refine ⟨?_, ?_, ?_⟩ <;> decide

/-- C1 (counterexample): an admin's approve call on an already-rejected
request succeeds and overwrites both the stored status and the review
metadata, so a terminal request does not stay immutable. -/
theorem claim_C1_counterexample :
    ((approvePremiumRequest
        ⟨[⟨"bob", none, true, "lifetime", none, 0⟩],
         [⟨"r1", "alice", .rejected, "proof.png", 199, 0, some 1, some "carol"⟩]⟩
        (some "bob") 9 "r1").1 = .success) ∧
    ((approvePremiumRequest
        ⟨[⟨"bob", none, true, "lifetime", none, 0⟩],
         [⟨"r1", "alice", .rejected, "proof.png", 199, 0, some 1, some "carol"⟩]⟩
        (some "bob") 9 "r1").2.premium_requests.map
          (fun r => (r.status, r.reviewed_by, r.reviewed_at)))
      = [(.approved, some "bob", some 9)] := by
  constructor <;> decide

/-- C1 (amended): approve and reject perform no pending-status check — for a
caller passing the RLS admin gate, a subsequent approve (resp. reject) call
on an already-terminal request succeeds and overwrites the stored status,
reviewer and review timestamp. -/
theorem claim_C1_amended_terminal_overwritten (db : DB) (uid rid : String)
    (now : Int) (r : PremiumRequest)
    (hadmin : isPremiumProfile db uid)
    (hfind : db.premium_requests.filter (fun x => decide (x.id = rid)) = [r])
    (hterm : r.status ≠ .pending) :
    ((approvePremiumRequest db (some uid) now rid).1 = .success ∧
      ∀ x ∈ (approvePremiumRequest db (some uid) now rid).2.premium_requests,
        x.id = rid → x.status = .approved ∧ x.reviewed_by = some uid ∧
          x.reviewed_at = some now) ∧
    ((rejectPremiumRequest db (some uid) now rid).1 = .success ∧
      ∀ x ∈ (rejectPremiumRequest db (some uid) now rid).2.premium_requests,
        x.id = rid → x.status = .rejected ∧ x.reviewed_by = some uid ∧
          x.reviewed_at = some now) := by
  have hsel : selectRequestSingle db uid rid = some r := by
    unfold selectRequestSingle
    have heq : db.premium_requests.filter
        (fun x => decide (x.id = rid ∧ canSelectRequest db uid x))
        = db.premium_requests.filter (fun x => decide (x.id = rid)) := by
      apply List.filter_congr
      intro x hx
      simp only [decide_eq_true_eq, decide_eq_decide]
      exact ⟨fun h => h.1, fun h => ⟨h, Or.inr hadmin⟩⟩
    rw [heq, hfind]
  refine ⟨⟨?_, ?_⟩, ?_, ?_⟩
  · simp only [approvePremiumRequest, hsel]
  · intro x hx hid
    simp only [approvePremiumRequest, hsel, List.mem_map] at hx
    obtain ⟨y, hy, rfl⟩ := hx
    by_cases hc : y.id = rid ∧ canUpdateRequests db uid
    · rw [if_pos hc]
      exact ⟨rfl, rfl, rfl⟩
    · rw [if_neg hc] at hid ⊢
      exact absurd ⟨hid, hadmin⟩ hc
  · simp only [rejectPremiumRequest]
  · intro x hx hid
    simp only [rejectPremiumRequest, List.mem_map] at hx
    obtain ⟨y, hy, rfl⟩ := hx
    by_cases hc : y.id = rid ∧ canUpdateRequests db uid
    · rw [if_pos hc]
      exact ⟨rfl, rfl, rfl⟩
    · rw [if_neg hc] at hid ⊢
      exact absurd ⟨hid, hadmin⟩ hc

theorem claim_C1_witness :
    (isPremiumProfile
        ⟨[⟨"bob", none, true, "lifetime", none, 0⟩],
         [⟨"r1", "alice", .rejected, "proof.png", 199, 0, some 1, some "carol"⟩]⟩ "bob") ∧
    ((⟨[⟨"bob", none, true, "lifetime", none, 0⟩],
       [⟨"r1", "alice", .rejected, "proof.png", 199, 0, some 1, some "carol"⟩]⟩ :
        DB).premium_requests.filter (fun x => decide (x.id = "r1"))
      = [⟨"r1", "alice", .rejected, "proof.png", 199, 0, some 1, some "carol"⟩]) ∧
    ((⟨"r1", "alice", .rejected, "proof.png", 199, 0, some 1, some "carol"⟩ :
        PremiumRequest).status ≠ .pending) ∧
    ((approvePremiumRequest
        ⟨[⟨"bob", none, true, "lifetime", none, 0⟩],
         [⟨"r1", "alice", .rejected, "proof.png", 199, 0, some 1, some "carol"⟩]⟩
        (some "bob") 9 "r1").1 = .success) :=
  ⟨by decide, by decide, by decide,
   (claim_C1_amended_terminal_overwritten
      ⟨[⟨"bob", none, true, "lifetime", none, 0⟩],
       [⟨"r1", "alice", .rejected, "proof.png", 199, 0, some 1, some "carol"⟩]⟩
      "bob" "r1" 9
      ⟨"r1", "alice", .rejected, "proof.png", 199, 0, some 1, some "carol"⟩
      (by decide) (by decide) (by decide)).1.1⟩

/-- C5: the derived accounting period matches the spec — for a weekly budget
the period start falls on a Sunday (weekday index 0) and the period end is
exactly 6 days later; for a monthly budget the period start/end are the
first/last calendar day of the current month, for every current date. -/
theorem claim_C5_period_derivation (now : Int) :
    (jsGetDay (periodRange (some Period.weekly) now).1 = 0 ∧
      (periodRange (some Period.weekly) now).2
        = (periodRange (some Period.weekly) now).1 + 6) ∧
    ((periodRange (some Period.monthly) now).1
        = firstDayOfMonth (jsGetFullYear now) (jsGetMonth now) ∧
      (periodRange (some Period.monthly) now).2
        = lastDayOfMonth (jsGetFullYear now) (jsGetMonth now)) := by
  have hm : 0 ≤ jsGetMonth now ∧ jsGetMonth now ≤ 11 := civilFromDays_month_bounds now
  refine ⟨⟨?_, ?_⟩, ?_, ?_⟩
  · simp only [periodRange, if_pos, jsSetDate_getDate_sub]
    unfold jsGetDay
    omega
  · simp only [periodRange, if_pos, jsSetDate_getDate_add]
  · simp only [periodRange]
    rw [if_neg (by simp)]
    exact mkDate_first _ _ hm.1 hm.2
  · simp only [periodRange]
    rw [if_neg (by simp)]
    exact mkDate_zero_next _ _ hm.1 hm.2

/-- C3 (counterexample): with no budget row, `getBudgetSummary` does not
return totalSpent = 0 — an expense inside the current calendar month is
still summed (day 20 is 1970-01-21, the expense is dated day 10 of that
month). -/
theorem claim_C3_counterexample :
    (getBudgetSummary (some "u") none
      [{ id := "e1", user_id := "u", amount := 500, category := "Food",
         description := "", date := 10, created_at := 0 }] 20).budget = none ∧
    (getBudgetSummary (some "u") none
      [{ id := "e1", user_id := "u", amount := 500, category := "Food",
         description := "", date := 10, created_at := 0 }] 20).totalSpent ≠ 0 := by
  have h1 : periodRange (Option.map (fun b => b.period) (none : Option Budget)) 20
      = (0, 30) := by decide
  simp only [getBudgetSummary, h1, List.filter, List.insertionSort, List.orderedInsert,
    List.map, List.sum_cons, List.sum_nil]
  norm_num

/-- C3 (amended): with no budget row, `getBudgetSummary` returns
budget = none, remaining = 0 and percentageUsed = 0 without erroring, but
totalSpent is the sum of the caller's expenses dated within the current
calendar month (the monthly range applies when no budget exists), not 0. -/
theorem claim_C3_amended_empty_summary (uid : String) (expenses : List Expense)
    (now : Int) (he : ∀ e ∈ expenses, (0 : ℚ) ≤ e.amount) :
    (getBudgetSummary (some uid) none expenses now).budget = none ∧
    (getBudgetSummary (some uid) none expenses now).remaining = 0 ∧
    (getBudgetSummary (some uid) none expenses now).percentageUsed = 0 ∧
    (getBudgetSummary (some uid) none expenses now).totalSpent =
      ((expenses.filter (fun e => decide (e.user_id = uid ∧
          firstDayOfMonth (jsGetFullYear now) (jsGetMonth now) ≤ e.date ∧
          e.date ≤ lastDayOfMonth (jsGetFullYear now) (jsGetMonth now)))).map
        (fun e => e.amount)).sum := by
  have hm : 0 ≤ jsGetMonth now ∧ jsGetMonth now ≤ 11 := civilFromDays_month_bounds now
  have hrange : periodRange (Option.map (fun b => b.period) (none : Option Budget)) now
      = (firstDayOfMonth (jsGetFullYear now) (jsGetMonth now),
         lastDayOfMonth (jsGetFullYear now) (jsGetMonth now)) := by
    show periodRange none now = _
    simp only [periodRange]
    rw [if_neg (by simp), mkDate_first _ _ hm.1 hm.2, mkDate_zero_next _ _ hm.1 hm.2]
  have hperm := List.perm_insertionSort (fun a b : Expense => b.date ≤ a.date)
      (expenses.filter (fun e => decide (e.user_id = uid ∧
        firstDayOfMonth (jsGetFullYear now) (jsGetMonth now) ≤ e.date ∧
        e.date ≤ lastDayOfMonth (jsGetFullYear now) (jsGetMonth now))))
  have hsum := (hperm.map (fun e => e.amount)).sum_eq
  have ht0 : 0 ≤ ((expenses.filter (fun e => decide (e.user_id = uid ∧
      firstDayOfMonth (jsGetFullYear now) (jsGetMonth now) ≤ e.date ∧
      e.date ≤ lastDayOfMonth (jsGetFullYear now) (jsGetMonth now)))).map
        (fun e => e.amount)).sum :=
    sum_map_amount_nonneg _ (fun e hee => he e (List.mem_filter.1 hee).1)
  refine ⟨?_, ?_, ?_, ?_⟩ <;> simp only [getBudgetSummary, hrange]
  · rw [hsum, max_eq_left (by linarith)]
  · rw [if_neg (lt_irrefl (0 : ℚ))]
    exact min_eq_left (by norm_num)
  · exact hsum

theorem claim_C3_witness :
    (∀ e ∈ [(⟨"e1", "u", 500, "Food", "", 10, 0⟩ : Expense)], (0 : ℚ) ≤ e.amount) ∧
    (getBudgetSummary (some "u") none
      [⟨"e1", "u", 500, "Food", "", 10, 0⟩] 20).remaining = 0 :=
  ⟨by intro e hee; simp at hee; subst hee; norm_num,
   (claim_C3_amended_empty_summary "u"
      [⟨"e1", "u", 500, "Food", "", 10, 0⟩] 20
      (by intro e hee; simp at hee; subst hee; norm_num)).2.1⟩

/-- C6: `getBudgetSummary` returns remaining = max(0, budgetAmount −
totalSpent), and percentageUsed = min(100, totalSpent / budgetAmount × 100)
when budgetAmount > 0 and 0 otherwise; for budget amount ≥ 0 and nonnegative
expense amounts, percentageUsed is always in [0, 100] and remaining ≥ 0. -/
theorem claim_C6_summary_arithmetic (uid : String) (budget : Option Budget)
    (expenses : List Expense) (now : Int)
    (hb : ∀ b, budget = some b → (0 : ℚ) ≤ b.amount)
    (he : ∀ e ∈ expenses, (0 : ℚ) ≤ e.amount) :
    (getBudgetSummary (some uid) budget expenses now).remaining
      = max 0 ((budget.map (fun b => b.amount)).getD 0
          - (getBudgetSummary (some uid) budget expenses now).totalSpent) ∧
    (getBudgetSummary (some uid) budget expenses now).percentageUsed
      = (if 0 < (budget.map (fun b => b.amount)).getD 0 then
           min 100 ((getBudgetSummary (some uid) budget expenses now).totalSpent
             / (budget.map (fun b => b.amount)).getD 0 * 100)
         else 0) ∧
    0 ≤ (getBudgetSummary (some uid) budget expenses now).percentageUsed ∧
    (getBudgetSummary (some uid) budget expenses now).percentageUsed ≤ 100 ∧
    0 ≤ (getBudgetSummary (some uid) budget expenses now).remaining := by
  have ht0 := getBudgetSummary_totalSpent_nonneg uid budget expenses now he
  rcases budget with _ | b
  · exact ⟨rfl, pct_eq _ _, pct_nonneg _ _ le_rfl ht0, pct_le_100 _ _, le_max_left _ _⟩
  · exact ⟨rfl, pct_eq _ _, pct_nonneg _ _ (hb b rfl) ht0, pct_le_100 _ _, le_max_left _ _⟩

theorem claim_C6_witness :
    (∀ b, (some (⟨"b1", "u", 5000, Period.monthly, 0⟩ : Budget)) = some b →
        (0 : ℚ) ≤ b.amount) ∧
    (∀ e ∈ [(⟨"e1", "u", 1000, "Food", "", 5, 0⟩ : Expense),
        ⟨"e2", "u", 2000, "Rent", "", 12, 0⟩], (0 : ℚ) ≤ e.amount) ∧
    (0 ≤ (getBudgetSummary (some "u") (some ⟨"b1", "u", 5000, Period.monthly, 0⟩)
        [⟨"e1", "u", 1000, "Food", "", 5, 0⟩,
         ⟨"e2", "u", 2000, "Rent", "", 12, 0⟩] 20).percentageUsed ∧
      (getBudgetSummary (some "u") (some ⟨"b1", "u", 5000, Period.monthly, 0⟩)
        [⟨"e1", "u", 1000, "Food", "", 5, 0⟩,
         ⟨"e2", "u", 2000, "Rent", "", 12, 0⟩] 20).percentageUsed ≤ 100) :=
  ⟨fun b hbb => by cases hbb; norm_num,
   by intro e hee; simp at hee; rcases hee with rfl | rfl <;> norm_num,
   ⟨(claim_C6_summary_arithmetic "u" (some ⟨"b1", "u", 5000, Period.monthly, 0⟩)
      [⟨"e1", "u", 1000, "Food", "", 5, 0⟩,
       ⟨"e2", "u", 2000, "Rent", "", 12, 0⟩] 20
      (fun b hbb => by cases hbb; norm_num)
      (by intro e hee; simp at hee; rcases hee with rfl | rfl <;> norm_num)).2.2.1,
    (claim_C6_summary_arithmetic "u" (some ⟨"b1", "u", 5000, Period.monthly, 0⟩)
      [⟨"e1", "u", 1000, "Food", "", 5, 0⟩,
       ⟨"e2", "u", 2000, "Rent", "", 12, 0⟩] 20
      (fun b hbb => by cases hbb; norm_num)
      (by intro e hee; simp at hee; rcases hee with rfl | rfl <;> norm_num)).2.2.2.1⟩⟩

/-- C2 (counterexample): the daily series over 7 days has 8 entries, not 7:
the fill loop runs from `now - days` to `now` inclusive. -/
theorem claim_C2_counterexample :
    (getSpendingOverTime (some "u") 0 [] 7).length = 8 ∧
    (getSpendingOverTime (some "u") 0 [] 7).length ≠ 7 := by
  constructor <;> decide

/-- C2 (amended): for N ∈ {7, 14, 30} and an authenticated caller, the daily
series has exactly N + 1 entries — one per calendar day from `now - N` to
`now` inclusive — sorted strictly ascending by date; each entry's amount is
the sum of the caller's expenses on that date, and in particular 0 for a day
with no expense. -/
theorem claim_C2_amended_series_shape (uid : String) (now : Int)
    (expenses : List Expense) (days : Int)
    (hdays : days = 7 ∨ days = 14 ∨ days = 30) :
    (getSpendingOverTime (some uid) now expenses days).length = days.toNat + 1 ∧
    (getSpendingOverTime (some uid) now expenses days).Pairwise
      (fun a b => a.date < b.date) ∧
    (∀ k : Nat, k < days.toNat + 1 →
      (getSpendingOverTime (some uid) now expenses days)[k]? =
        some ⟨now - days + k,
          ((expenses.filter (fun e =>
              decide (e.user_id = uid ∧ e.date = now - days + k))).map
            (fun e => e.amount)).sum⟩) ∧
    (∀ x ∈ getSpendingOverTime (some uid) now expenses days,
      (∀ e ∈ expenses, e.user_id = uid → e.date ≠ x.date) → x.amount = 0) := by
  have hd0 : 0 ≤ days := by rcases hdays with rfl | rfl | rfl <;> norm_num
  have hn : (now + 1 - (now - days)).toNat = days.toNat + 1 := by omega
  simp only [getSpendingOverTime, jsSetDate_getDate_sub, fillDays, hn]
  refine ⟨fillDaysGo_length _ _ _, fillDaysGo_pairwise _ _ _, ?_, ?_⟩
  · intro k hk
    rw [fillDaysGo_getElem? _ _ _ k hk]
    simp only [Option.some.injEq, SpendingData.mk.injEq, true_and]
    exact dailyTotal_eq uid (now - days) now (now - days + k) expenses
      (by omega) (by omega)
  · intro x hx hno
    have hm := fillDaysGo_mem _ _ _ x hx
    rw [hm.1]
    exact dailyTotal_zero uid (now - days) now x.date expenses hno

theorem claim_C2_witness :
    ((7 : Int) = 7 ∨ (7 : Int) = 14 ∨ (7 : Int) = 30) ∧
    (getSpendingOverTime (some "u") 0 [] 7).length = (7 : Int).toNat + 1 :=
  ⟨Or.inl rfl, (claim_C2_amended_series_shape "u" 0 [] 7 (Or.inl rfl)).1⟩

end PesoPilot
